import Mathlib

/-!
Verification of `src/theme-toggle.js`: a browser script that toggles a page
between light and dark themes on a keyboard shortcut and persists the choice
in local storage under two keys.

The script is embedded shallowly.  A `World` carries the presentation state
(the `dark` class on the `html` and `body` elements and the `data-theme`
attribute on `html`), the document's elements, the two storage slots, fault
flags that decide which storage and DOM-query operations raise, and logs of
clicks, dispatched `themechange` events and `console.warn` calls.  Each
function of the source becomes a function on `World`; bodies of `try` blocks
return `World × Except Unit _` so that a raised exception and the state at
the moment it was raised are explicit, and the translated `catch` handlers
consume the `Except` layer exactly where the source catches.
-/

namespace ThemeToggle

/-- Substring test on character lists: does `p` occur at the start of `s`? -/
def lcharsStart : List Char → List Char → Bool
  | [], _ => true
  | _ :: _, [] => false
  | a :: as, b :: bs => a == b && lcharsStart as bs

/-- Substring test on character lists: does `p` occur anywhere in `s`?
Models the JS `String.prototype.includes` and the CSS `[attr*=v]` test. -/
def lcharsIn (p : List Char) : List Char → Bool
  | [] => lcharsStart p []
  | c :: rest => lcharsStart p (c :: rest) || lcharsIn p rest

/-- The test `substrOf p s` is true when `p` occurs as a contiguous substring of `s`. -/
def substrOf (p s : String) : Bool := lcharsIn p.toList s.toList

/-- The test `substrLowerOf p s` is `substrOf` after lowercasing `s`, modelling
`s.toLowerCase().includes(p)` from the source. -/
def substrLowerOf (p s : String) : Bool :=
  lcharsIn p.toList (s.toList.map Char.toLower)

/-- A DOM element, with just the attributes the script inspects.
`svgHTML` is the `outerHTML` of the first `svg` descendant, when one exists;
`visible` models `offsetParent !== null`; `ident` is an identity used by the
click log. -/
structure Elem where
  tag : String
  ariaLabel : Option String
  dataTestid : Option String
  className : String
  visible : Bool
  svgHTML : Option String
  ident : Nat
  deriving Repr, DecidableEq

/-- The selector shapes appearing in the source's fixed selector list. -/
inductive Selector where
  | buttonAria (sub : String)
  | attrTestid (sub : String)
  | classExact (name : String)
  | classSub (sub : String)
  deriving Repr, DecidableEq

/-- The source's fixed, ordered selector list (`selectors`, lines 13-23). -/
def selectorList : List Selector :=
  [Selector.buttonAria "theme", Selector.buttonAria "dark",
   Selector.buttonAria "light", Selector.buttonAria "mode",
   Selector.attrTestid "theme", Selector.attrTestid "toggle",
   Selector.classExact "theme-toggle", Selector.classSub "theme-toggle",
   Selector.classSub "mode-toggle"]

/-- Split a class attribute string at spaces into its token list (the
token set that `.c` class selectors match against). -/
def classTokensAux : List Char → List Char → List String
  | [], cur => [String.mk cur.reverse]
  | c :: rest, cur =>
    if c == ' ' then String.mk cur.reverse :: classTokensAux rest []
    else classTokensAux rest (c :: cur)

/-- The whitespace-separated tokens of a class attribute string. -/
def classTokens (s : String) : List String := classTokensAux s.toList []

/-- CSS matching for the selector shapes used by the script:
`button[aria-label*=v]`, `[data-testid*=v]`, `.c`, `[class*=v]`. -/
def Selector.sat : Selector → Elem → Bool
  | Selector.buttonAria sub, e =>
      e.tag == "button" &&
        (match e.ariaLabel with
         | some a => substrOf sub a
         | none => false)
  | Selector.attrTestid sub, e =>
      (match e.dataTestid with
       | some a => substrOf sub a
       | none => false)
  | Selector.classExact n, e => (classTokens e.className).contains n
  | Selector.classSub sub, e => substrOf sub e.className

/-- The whole mutable state the script touches: presentation attributes,
document elements, the two storage slots, fault switches (which storage and
query operations raise), and observation logs. -/
structure World where
  htmlDark : Bool
  bodyDark : Bool
  dataTheme : Option String
  elems : List Elem
  sPref : Option String
  sTheme : Option String
  getThrows : Bool
  setFails : String → Bool
  queryThrows : Bool
  clicks : List Nat
  events : List (String × String)
  warnings : Nat

/-- The constant `THEME_STORAGE_KEY` from the source. -/
def THEME_STORAGE_KEY : String := "mintlify-theme-preference"

/-- The constant `MINTLIFY_THEME_KEY` from the source. -/
def MINTLIFY_THEME_KEY : String := "theme"

/-- The call `console.warn`: the diagnostic channel, modelled as a counter. -/
def warnW (w : World) : World := { w with warnings := w.warnings + 1 }

/-- The call `localStorage.getItem key`: raises when the fault flag `getThrows` is
set, otherwise returns the slot for the key (`none` models JS `null`). -/
def getItem (key : String) (w : World) : World × Except Unit (Option String) :=
  if w.getThrows then (w, Except.error ()) else
    (w, Except.ok
      (if key == THEME_STORAGE_KEY then w.sPref
       else if key == MINTLIFY_THEME_KEY then w.sTheme
       else none))

/-- The call `localStorage.setItem key val`: raises (without writing) when the fault
flag `setFails key` is set, otherwise stores the value in the slot. -/
def setItem (key val : String) (w : World) : World × Except Unit Unit :=
  if w.setFails key then (w, Except.error ()) else
    if key == THEME_STORAGE_KEY then ({ w with sPref := some val }, Except.ok ())
    else if key == MINTLIFY_THEME_KEY then ({ w with sTheme := some val }, Except.ok ())
    else (w, Except.ok ())

/-- The call `document.querySelector sel`: first element of the document matching the
selector, raising when the `queryThrows` fault flag is set. -/
def querySelOne (sel : Selector) (w : World) : World × Except Unit (Option Elem) :=
  if w.queryThrows then (w, Except.error ())
  else (w, Except.ok (w.elems.find? sel.sat))

/-- The call `document.querySelectorAll('button')` in document order, raising when
the `queryThrows` fault flag is set. -/
def queryAllButtons (w : World) : World × Except Unit (List Elem) :=
  if w.queryThrows then (w, Except.error ())
  else (w, Except.ok (w.elems.filter (fun e => e.tag == "button")))

/-- The call `element.click()`: recorded in the click log. -/
def clickElem (e : Elem) (w : World) : World :=
  { w with clicks := w.clicks ++ [e.ident] }

/-- Dispatch of the `themechange` custom event on `document` and `window`
(lines 90-94), recorded as two entries of the event log. -/
def dispatchThemeChange (t : String) (w : World) : World :=
  { w with events := w.events ++ [("document", t), ("window", t)] }

/-- The selector loop of `clickThemeToggleButton` (lines 26-36): for each
selector, inside `try`, query the first match and click it when visible;
a raised query exception is caught and the loop continues. -/
def selectorLoop : List Selector → World → World × Bool
  | [], w => (w, false)
  | sel :: rest, w =>
    match querySelOne sel w with
    | (w1, Except.error _) => selectorLoop rest w1
    | (w1, Except.ok none) => selectorLoop rest w1
    | (w1, Except.ok (some b)) =>
      if b.visible then (clickElem b w1, true) else selectorLoop rest w1

/-- Does this svg markup contain a sun/moon/light/dark hint after
lowercasing (lines 46-49)? -/
def svgHasHint (s : String) : Bool :=
  substrLowerOf "sun" s || substrLowerOf "moon" s ||
  substrLowerOf "light" s || substrLowerOf "dark" s

/-- The icon-scan loop of `clickThemeToggleButton` (lines 40-54): skip
hidden buttons, and click the first visible button whose first svg child's
markup carries a theme hint. -/
def svgScan : List Elem → World → World × Bool
  | [], w => (w, false)
  | b :: rest, w =>
    if b.visible then
      match b.svgHTML with
      | some s => if svgHasHint s then (clickElem b w, true) else svgScan rest w
      | none => svgScan rest w
    else svgScan rest w

/-- The function `clickThemeToggleButton` (lines 11-60): try the fixed selectors first,
then scan visible buttons for icon markup; a raised exception in the scan is
caught and the function falls through to `return false`.  The Bool is the
source's return value: whether a host control was found and clicked. -/
def clickThemeToggleButton (w : World) : World × Bool :=
  match selectorLoop selectorList w with
  | (w1, true) => (w1, true)
  | (w1, false) =>
    match queryAllButtons w1 with
    | (w2, Except.error _) => (w2, false)
    | (w2, Except.ok btns) => svgScan btns w2

/-- The dark-state test of `toggleTheme` (lines 69-71): the `dark` class on
`html`, or `data-theme="dark"` on `html`, or the `dark` class on `body`. -/
def isDarkOf (w : World) : Bool :=
  w.htmlDark || (w.dataTheme == some "dark") || w.bodyDark

/-- The `try` body of `toggleTheme` (lines 66-97): flip the presentation
attributes, write both storage keys, then dispatch the `themechange` event
with detail theme `isDark ? 'light' : 'dark'`.  A raised storage exception
propagates out of the body with the state as mutated so far. -/
def toggleThemeBody (w : World) : World × Except Unit Unit :=
  let isDark := isDarkOf w
  let w1 :=
    if isDark then
      { w with htmlDark := false, dataTheme := some "light", bodyDark := false }
    else
      { w with htmlDark := true, dataTheme := some "dark", bodyDark := true }
  match setItem THEME_STORAGE_KEY (if isDark then "light" else "dark") w1 with
  | (w2, Except.error e) => (w2, Except.error e)
  | (w2, Except.ok _) =>
    match setItem MINTLIFY_THEME_KEY (if isDark then "light" else "dark") w2 with
    | (w3, Except.error e) => (w3, Except.error e)
    | (w3, Except.ok _) =>
      (dispatchThemeChange (if isDark then "light" else "dark") w3, Except.ok ())

/-- The function `toggleTheme` (lines 65-102): the body wrapped in `try/catch`; on an
exception, `console.warn` and continue. -/
def toggleTheme (w : World) : World :=
  match toggleThemeBody w with
  | (w1, Except.ok _) => w1
  | (w1, Except.error _) => warnW w1

/-- JS truthiness of a `localStorage.getItem` result: `null` and the empty
string are falsy. -/
def jsTruthy : Option String → Bool
  | none => false
  | some s => !(s == "")

/-- The assignment branch of `applySavedTheme` (lines 117-125): `"dark"`
sets the dark presentation attributes, any other truthy value sets the
light ones. -/
def applyThemeVal (v : Option String) (w : World) : World :=
  if v == some "dark" then
    { w with htmlDark := true, dataTheme := some "dark", bodyDark := true }
  else
    { w with htmlDark := false, dataTheme := some "light", bodyDark := false }

/-- The `try` body of `applySavedTheme` (lines 108-126): read the first key,
fall back (JS `||`) to the second, and when the result is truthy apply it to
the presentation attributes. -/
def applySavedThemeBody (w : World) : World × Except Unit Unit :=
  match getItem THEME_STORAGE_KEY w with
  | (w1, Except.error e) => (w1, Except.error e)
  | (w1, Except.ok v1) =>
    match (if jsTruthy v1 then (w1, Except.ok v1)
           else getItem MINTLIFY_THEME_KEY w1) with
    | (w2, Except.error e) => (w2, Except.error e)
    | (w2, Except.ok savedTheme) =>
      if jsTruthy savedTheme then (applyThemeVal savedTheme w2, Except.ok ())
      else (w2, Except.ok ())

/-- The function `applySavedTheme` (lines 107-131): the body wrapped in `try/catch`; on
an exception, `console.warn` and continue. -/
def applySavedTheme (w : World) : World :=
  match applySavedThemeBody w with
  | (w1, Except.ok _) => w1
  | (w1, Except.error _) => warnW w1

/-- A keyboard event, with the fields the handler reads. -/
structure KeyEvent where
  ctrlKey : Bool
  metaKey : Bool
  shiftKey : Bool
  key : String
  keyCode : Nat
  deriving Repr, DecidableEq

/-- The shortcut test of `handleKeyboardShortcut` (lines 138-142):
(Ctrl or Cmd) + Shift + L, case-insensitive, also accepting keyCode 76. -/
def shortcutSat (e : KeyEvent) : Bool :=
  (e.ctrlKey || e.metaKey) && e.shiftKey &&
    (e.key == "L" || e.key == "l" || e.keyCode == 76)

/-- The function `handleKeyboardShortcut` (lines 136-155): on a matching shortcut,
suppress the default (the returned Bool), try the host control, and fall
back to the manual toggle only when none was clicked. -/
def handleKeyboardShortcut (e : KeyEvent) (w : World) : World × Bool :=
  if shortcutSat e then
    match clickThemeToggleButton w with
    | (w1, true) => (w1, true)
    | (w1, false) => (toggleTheme w1, true)
  else (w, false)

/-! ### Characterization lemmas -/

/-- The two storage keys are distinct strings. -/
lemma keysDiffer : (MINTLIFY_THEME_KEY == THEME_STORAGE_KEY) = false := by decide

/-- The two theme names are distinct `Option String` values. -/
lemma someLightNeqSomeDark :
    ((some "light" : Option String) == some "dark") = false := by decide

/-- The dark theme name compares equal to itself. -/
lemma someDarkBeqSomeDark :
    ((some "dark" : Option String) == some "dark") = true := by decide

/-- Closed form of the `toggleTheme` body: the presentation attributes flip
first; then the first key is written, the second key is written, and the
event dispatched, stopping at the first raising write. -/
lemma toggleThemeBody_spec (w : World) :
    toggleThemeBody w =
      (if w.setFails THEME_STORAGE_KEY then
        ({ w with htmlDark := !(isDarkOf w), bodyDark := !(isDarkOf w),
                  dataTheme := some (if isDarkOf w then "light" else "dark") },
         Except.error ())
       else if w.setFails MINTLIFY_THEME_KEY then
        ({ w with htmlDark := !(isDarkOf w), bodyDark := !(isDarkOf w),
                  dataTheme := some (if isDarkOf w then "light" else "dark"),
                  sPref := some (if isDarkOf w then "light" else "dark") },
         Except.error ())
       else
        (dispatchThemeChange (if isDarkOf w then "light" else "dark")
          { w with htmlDark := !(isDarkOf w), bodyDark := !(isDarkOf w),
                   dataTheme := some (if isDarkOf w then "light" else "dark"),
                   sPref := some (if isDarkOf w then "light" else "dark"),
                   sTheme := some (if isDarkOf w then "light" else "dark") },
         Except.ok ())) := by
  unfold toggleThemeBody setItem
  cases hd : isDarkOf w <;>
    cases h1 : w.setFails THEME_STORAGE_KEY <;>
      cases h2 : w.setFails MINTLIFY_THEME_KEY <;>
        simp [hd, h1, h2, keysDiffer]

/-- Closed form of `toggleTheme` including the catch handler. -/
lemma toggleTheme_spec (w : World) :
    toggleTheme w =
      (if w.setFails THEME_STORAGE_KEY then
        warnW { w with htmlDark := !(isDarkOf w), bodyDark := !(isDarkOf w),
                       dataTheme := some (if isDarkOf w then "light" else "dark") }
       else if w.setFails MINTLIFY_THEME_KEY then
        warnW { w with htmlDark := !(isDarkOf w), bodyDark := !(isDarkOf w),
                       dataTheme := some (if isDarkOf w then "light" else "dark"),
                       sPref := some (if isDarkOf w then "light" else "dark") }
       else
        dispatchThemeChange (if isDarkOf w then "light" else "dark")
          { w with htmlDark := !(isDarkOf w), bodyDark := !(isDarkOf w),
                   dataTheme := some (if isDarkOf w then "light" else "dark"),
                   sPref := some (if isDarkOf w then "light" else "dark"),
                   sTheme := some (if isDarkOf w then "light" else "dark") }) := by
  unfold toggleTheme
  rw [toggleThemeBody_spec]
  split_ifs <;> rfl

lemma toggleTheme_htmlDark (w : World) :
    (toggleTheme w).htmlDark = !(isDarkOf w) := by
  rw [toggleTheme_spec]; split_ifs <;> rfl

lemma toggleTheme_bodyDark (w : World) :
    (toggleTheme w).bodyDark = !(isDarkOf w) := by
  rw [toggleTheme_spec]; split_ifs <;> rfl

lemma toggleTheme_dataTheme (w : World) :
    (toggleTheme w).dataTheme = some (if isDarkOf w then "light" else "dark") := by
  rw [toggleTheme_spec]; split_ifs <;> rfl

lemma toggleTheme_isDark (w : World) :
    isDarkOf (toggleTheme w) = !(isDarkOf w) := by
  have h1 := toggleTheme_htmlDark w
  have h2 := toggleTheme_bodyDark w
  have h3 := toggleTheme_dataTheme w
  cases hd : isDarkOf w <;>
    rw [hd] at h1 h2 h3 <;>
      simp [isDarkOf, h1, h2, h3, someLightNeqSomeDark, someDarkBeqSomeDark]

lemma toggleTheme_sPref (w : World) :
    (toggleTheme w).sPref =
      (if w.setFails THEME_STORAGE_KEY then w.sPref
       else some (if isDarkOf w then "light" else "dark")) := by
  rw [toggleTheme_spec]; split_ifs <;> rfl

lemma toggleTheme_sTheme (w : World) :
    (toggleTheme w).sTheme =
      (if w.setFails THEME_STORAGE_KEY then w.sTheme
       else if w.setFails MINTLIFY_THEME_KEY then w.sTheme
       else some (if isDarkOf w then "light" else "dark")) := by
  rw [toggleTheme_spec]; split_ifs <;> rfl

lemma toggleTheme_events (w : World) :
    (toggleTheme w).events =
      (if w.setFails THEME_STORAGE_KEY then w.events
       else if w.setFails MINTLIFY_THEME_KEY then w.events
       else w.events ++
         [("document", if isDarkOf w then "light" else "dark"),
          ("window", if isDarkOf w then "light" else "dark")]) := by
  rw [toggleTheme_spec]; split_ifs <;> rfl

lemma toggleTheme_warnings (w : World) :
    (toggleTheme w).warnings =
      (if w.setFails THEME_STORAGE_KEY then w.warnings + 1
       else if w.setFails MINTLIFY_THEME_KEY then w.warnings + 1
       else w.warnings) := by
  rw [toggleTheme_spec]; split_ifs <;> rfl

/-- The `toggleTheme` body succeeds exactly when neither storage write
raises. -/
lemma toggleThemeBody_ok_iff (w : World) :
    (toggleThemeBody w).2 = Except.ok () ↔
      (w.setFails THEME_STORAGE_KEY = false ∧
       w.setFails MINTLIFY_THEME_KEY = false) := by
  rw [toggleThemeBody_spec]
  split_ifs with h1 h2 <;> simp_all

lemma toggleThemeBody_warnings (w : World) :
    (toggleThemeBody w).1.warnings = w.warnings := by
  rw [toggleThemeBody_spec]; split_ifs <;> rfl

/-- Closed form of the `applySavedTheme` body. -/
lemma applySavedThemeBody_spec (w : World) :
    applySavedThemeBody w =
      (if w.getThrows then (w, Except.error ())
       else if jsTruthy w.sPref then (applyThemeVal w.sPref w, Except.ok ())
       else if jsTruthy w.sTheme then (applyThemeVal w.sTheme w, Except.ok ())
       else (w, Except.ok ())) := by
  unfold applySavedThemeBody getItem
  cases hg : w.getThrows <;> simp [hg, keysDiffer]
  cases h1 : jsTruthy w.sPref <;> simp [h1]

/-- Closed form of `applySavedTheme` including the catch handler. -/
lemma applySavedTheme_spec (w : World) :
    applySavedTheme w =
      (if w.getThrows then warnW w
       else if jsTruthy w.sPref then applyThemeVal w.sPref w
       else if jsTruthy w.sTheme then applyThemeVal w.sTheme w
       else w) := by
  unfold applySavedTheme
  rw [applySavedThemeBody_spec]
  split_ifs <;> rfl

lemma applySavedThemeBody_error_iff (w : World) :
    (applySavedThemeBody w).2 = Except.error () ↔ w.getThrows = true := by
  rw [applySavedThemeBody_spec]
  split_ifs with hg <;> simp [hg]

lemma applySavedThemeBody_warnings (w : World) :
    (applySavedThemeBody w).1.warnings = w.warnings := by
  rw [applySavedThemeBody_spec]
  split_ifs <;>
    first
    | rfl
    | (simp only [applyThemeVal]; split_ifs <;> rfl)

/-! ### Host-control search lemmas -/

/-- Outcome of one selector of the loop: the first document-order element
matching it exists and is visible. -/
def selHit (w : World) (sel : Selector) : Bool :=
  match w.elems.find? sel.sat with
  | some b => b.visible
  | none => false

/-- Outcome of one button of the icon scan: visible, has an svg child, and
that svg's markup carries a theme hint. -/
def btnIcon (b : Elem) : Bool :=
  b.visible &&
    (match b.svgHTML with
     | some s => svgHasHint s
     | none => false)

/-- A host control is findable exactly when some selector of the list has a
visible first match, or some visible document button carries icon markup. -/
def hostControlFindable (w : World) : Bool :=
  selectorList.any (selHit w) ||
    (w.elems.filter (fun e => e.tag == "button")).any btnIcon

lemma selectorLoop_flag (sels : List Selector) (w : World)
    (hq : w.queryThrows = false) :
    (selectorLoop sels w).2 = sels.any (selHit w) := by
  induction sels with
  | nil => simp [selectorLoop]
  | cons sel rest ih =>
    simp only [selectorLoop, querySelOne, hq, if_false, List.any_cons]
    cases hf : w.elems.find? sel.sat with
    | none => simp [selHit, hf, ih]
    | some b =>
      cases hv : b.visible <;> simp [selHit, hf, hv, ih]

lemma selectorLoop_flag_throws (sels : List Selector) (w : World)
    (hq : w.queryThrows = true) :
    selectorLoop sels w = (w, false) := by
  induction sels with
  | nil => simp [selectorLoop]
  | cons sel rest ih => simp [selectorLoop, querySelOne, hq, ih]

lemma querySelOne_fst (sel : Selector) (w : World) (p : World × Except Unit (Option Elem))
    (h : querySelOne sel w = p) : p.1 = w := by
  unfold querySelOne at h
  split_ifs at h <;> exact congrArg Prod.fst h.symm

lemma selectorLoop_world_of_false (sels : List Selector) (w : World)
    (h : (selectorLoop sels w).2 = false) :
    (selectorLoop sels w).1 = w := by
  induction sels with
  | nil => simp [selectorLoop]
  | cons sel rest ih =>
    simp only [selectorLoop] at h ⊢
    split at h
    · rename_i w1 u heq
      have hw1 : w1 = w := querySelOne_fst sel w _ heq
      subst hw1
      exact ih h
    · rename_i w1 heq
      have hw1 : w1 = w := querySelOne_fst sel w _ heq
      subst hw1
      exact ih h
    · rename_i w1 b heq
      have hw1 : w1 = w := querySelOne_fst sel w _ heq
      subst hw1
      by_cases hv : b.visible = true
      · rw [if_pos hv] at h; simp at h
      · rw [if_neg hv] at h ⊢; exact ih h

lemma selectorLoop_world_of_true (sels : List Selector) (w : World)
    (h : (selectorLoop sels w).2 = true) :
    ∃ b : Elem, (selectorLoop sels w).1 = clickElem b w := by
  induction sels with
  | nil => simp [selectorLoop] at h
  | cons sel rest ih =>
    simp only [selectorLoop] at h ⊢
    split at h
    · rename_i w1 u heq
      have hw1 : w1 = w := querySelOne_fst sel w _ heq
      subst hw1
      exact ih h
    · rename_i w1 heq
      have hw1 : w1 = w := querySelOne_fst sel w _ heq
      subst hw1
      exact ih h
    · rename_i w1 b heq
      have hw1 : w1 = w := querySelOne_fst sel w _ heq
      subst hw1
      by_cases hv : b.visible = true
      · rw [if_pos hv]; exact ⟨b, rfl⟩
      · rw [if_neg hv] at h ⊢; exact ih h

lemma svgScan_flag (btns : List Elem) (w : World) :
    (svgScan btns w).2 = btns.any btnIcon := by
  induction btns with
  | nil => simp [svgScan]
  | cons b rest ih =>
    simp only [svgScan, List.any_cons]
    cases hv : b.visible
    · simp [btnIcon, hv, ih]
    · cases hs : b.svgHTML with
      | none => simp [btnIcon, hv, hs, ih]
      | some s => cases hh : svgHasHint s <;> simp [btnIcon, hv, hs, hh, ih]

lemma svgScan_world_of_false (btns : List Elem) (w : World)
    (h : (svgScan btns w).2 = false) :
    (svgScan btns w).1 = w := by
  induction btns with
  | nil => simp [svgScan]
  | cons b rest ih =>
    simp only [svgScan] at h ⊢
    by_cases hv : b.visible = true
    · rw [if_pos hv] at h ⊢
      split at h
      · rename_i s hs
        by_cases hh : svgHasHint s = true
        · rw [if_pos hh] at h; simp at h
        · rw [if_neg hh] at h ⊢; exact ih h
      · exact ih h
    · rw [if_neg hv] at h ⊢; exact ih h

lemma svgScan_world_of_true (btns : List Elem) (w : World)
    (h : (svgScan btns w).2 = true) :
    ∃ b : Elem, (svgScan btns w).1 = clickElem b w := by
  induction btns with
  | nil => simp [svgScan] at h
  | cons b rest ih =>
    simp only [svgScan] at h ⊢
    by_cases hv : b.visible = true
    · rw [if_pos hv] at h ⊢
      split at h
      · rename_i s hs
        by_cases hh : svgHasHint s = true
        · rw [if_pos hh]; exact ⟨b, rfl⟩
        · rw [if_neg hh] at h ⊢; exact ih h
      · exact ih h
    · rw [if_neg hv] at h ⊢; exact ih h

lemma queryAllButtons_eq (w : World) (hq : w.queryThrows = false) :
    queryAllButtons w =
      (w, Except.ok (w.elems.filter (fun e => e.tag == "button"))) := by
  unfold queryAllButtons
  rw [hq]
  simp

/-- When DOM queries succeed, `clickThemeToggleButton` reports success
exactly when a host control is findable. -/
lemma clickThemeToggleButton_flag (w : World) (hq : w.queryThrows = false) :
    (clickThemeToggleButton w).2 = hostControlFindable w := by
  unfold clickThemeToggleButton hostControlFindable
  split
  · rename_i w1 hsl
    have h2 : (selectorLoop selectorList w).2 = true := by rw [hsl]
    rw [selectorLoop_flag selectorList w hq] at h2
    simp [h2]
  · rename_i w1 hsl
    have h2 : (selectorLoop selectorList w).2 = false := by rw [hsl]
    have hw1 : w1 = w := by
      have h3 := selectorLoop_world_of_false selectorList w h2
      rw [hsl] at h3
      exact h3
    rw [hw1, queryAllButtons_eq w hq]
    rw [selectorLoop_flag selectorList w hq] at h2
    simp [svgScan_flag, h2]

/-- The function `clickThemeToggleButton` either leaves the world unchanged (reporting
failure) or performs exactly one click on some element. -/
lemma clickThemeToggleButton_world (w : World) :
    ((clickThemeToggleButton w).2 = false → (clickThemeToggleButton w).1 = w) ∧
    ((clickThemeToggleButton w).2 = true →
      ∃ b : Elem, (clickThemeToggleButton w).1 = clickElem b w) := by
  unfold clickThemeToggleButton
  split
  · rename_i w1 hsl
    have h2 : (selectorLoop selectorList w).2 = true := by rw [hsl]
    constructor
    · intro h; simp at h
    · intro _
      have h3 := selectorLoop_world_of_true selectorList w h2
      rw [hsl] at h3
      exact h3
  · rename_i w1 hsl
    have h2 : (selectorLoop selectorList w).2 = false := by rw [hsl]
    have hw1 : w1 = w := by
      have h3 := selectorLoop_world_of_false selectorList w h2
      rw [hsl] at h3
      exact h3
    rw [hw1]
    by_cases hq : w.queryThrows = true
    · have hqa : queryAllButtons w = (w, Except.error ()) := by
        unfold queryAllButtons; rw [hq]; simp
      rw [hqa]
      exact ⟨fun _ => rfl, fun h => by simp at h⟩
    · rw [Bool.not_eq_true] at hq
      rw [queryAllButtons_eq w hq]
      exact ⟨fun h => svgScan_world_of_false _ _ h,
             fun h => svgScan_world_of_true _ _ h⟩

/-! ### Concrete worlds and events used as witnesses -/

/-- A page in the canonical light state with a benign environment. -/
def wBase : World :=
  { htmlDark := false, bodyDark := false, dataTheme := some "light",
    elems := [], sPref := some "light", sTheme := some "light",
    getThrows := false, setFails := fun _ => false, queryThrows := false,
    clicks := [], events := [], warnings := 0 }

/-- A page with no `data-theme` attribute at all. -/
def wNoAttr : World := { wBase with dataTheme := none }

/-- The canonical dark state. -/
def wDarkCanon : World :=
  { wBase with htmlDark := true, bodyDark := true, dataTheme := some "dark" }

/-- Same presentation as `wBase` but entirely different storage contents and
fault configuration. -/
def wAltStorage : World :=
  { wBase with elems := [], sPref := some "dark", sTheme := none,
               getThrows := true, setFails := fun _ => true,
               queryThrows := true }

/-- Writes to the second storage key (`theme`) raise; the first succeeds. -/
def wSetFail2 : World := { wBase with setFails := fun k => k == "theme" }

/-- DOM queries raise. -/
def wQueryBroken : World := { wBase with queryThrows := true }

/-- The world where `localStorage.getItem` raises. -/
def wGetBroken : World := { wBase with getThrows := true }

/-- Only the second storage key holds a (dark) preference. -/
def wDarkStored : World := { wBase with sPref := none, sTheme := some "dark" }

/-- The first storage key holds a corrupted value. -/
def wBlueStored : World := { wBase with sPref := some "blue", sTheme := none }

/-- Both storage keys are empty. -/
def wEmptyStore : World := { wBase with sPref := none, sTheme := none }

/-- A hidden host toggle button whose aria-label mentions the theme. -/
def hostBtnHidden : Elem :=
  { tag := "button", ariaLabel := some "toggle theme", dataTestid := none,
    className := "", visible := false, svgHTML := none, ident := 1 }

/-- A visible host toggle button with the same aria-label. -/
def hostBtnVisible : Elem := { hostBtnHidden with visible := true, ident := 2 }

/-- A document whose first aria-label match is hidden while a later match is
visible. -/
def wShadowed : World := { wBase with elems := [hostBtnHidden, hostBtnVisible] }

/-- A document with one visible host toggle button. -/
def wHost : World := { wBase with elems := [hostBtnVisible] }

/-- The Ctrl+Shift+L key event. -/
def evShortcut : KeyEvent :=
  { ctrlKey := true, metaKey := false, shiftKey := true,
    key := "L", keyCode := 76 }

/-- The theme name that was active before a toggle, as derived by the
script's own dark-state test. -/
def preThemeName (w : World) : String :=
  if isDarkOf w then "dark" else "light"

/-! ### Claims -/

/-- C1, counterexample: starting from the canonical light state, the
`themechange` events dispatched by the toggle carry the theme `"dark"`,
while the pre-toggle theme was `"light"`; every dispatched payload differs
from the pre-toggle theme, so the event does not carry the pre-toggle
theme name. -/
theorem C1_counterexample :
    preThemeName wBase = "light" ∧
    (toggleTheme wBase).events = [("document", "dark"), ("window", "dark")] ∧
    ((toggleTheme wBase).events.all (fun p => p.2 != preThemeName wBase)) = true := by
  decide

/-- C1, amended: whenever both storage writes succeed, the toggle dispatches
the `themechange` event on document and window carrying the post-toggle
(new) theme name — the name derived from the presentation state after the
toggle. -/
theorem C1_event_reports_new_theme (w : World)
    (h1 : w.setFails THEME_STORAGE_KEY = false)
    (h2 : w.setFails MINTLIFY_THEME_KEY = false) :
    (toggleTheme w).events =
      w.events ++
        [("document", if isDarkOf (toggleTheme w) then "dark" else "light"),
         ("window", if isDarkOf (toggleTheme w) then "dark" else "light")] := by
  simp only [toggleTheme_events, toggleTheme_isDark, h1, h2,
             Bool.false_eq_true, if_false]
  cases hd : isDarkOf w <;> simp [hd]

/-- C1 witness: the amended statement at the canonical light world. -/
theorem C1_event_reports_new_theme_witness :
    (toggleTheme wBase).events =
      wBase.events ++
        [("document", if isDarkOf (toggleTheme wBase) then "dark" else "light"),
         ("window", if isDarkOf (toggleTheme wBase) then "dark" else "light")] :=
  C1_event_reports_new_theme wBase rfl rfl

/-- C2, counterexample: starting with no `data-theme` attribute (and no dark
classes), two toggles leave `data-theme="light"` on the root, not the
original absent attribute — the presentation attributes are not restored
exactly for every starting state. -/
theorem C2_counterexample :
    wNoAttr.dataTheme = none ∧
    (toggleTheme (toggleTheme wNoAttr)).dataTheme = some "light" := by
  decide

/-- C2, amended: invoking the toggle twice always restores the dark-state
indicator derived from the presentation attributes, and it restores the
attributes (`dark` classes and `data-theme`) exactly when the starting state
is canonical: fully dark (both classes set, `data-theme="dark"`) or fully
light (no classes, `data-theme="light"`). -/
theorem C2_double_toggle (w : World) :
    isDarkOf (toggleTheme (toggleTheme w)) = isDarkOf w ∧
    (((w.htmlDark = true ∧ w.bodyDark = true ∧ w.dataTheme = some "dark") ∨
      (w.htmlDark = false ∧ w.bodyDark = false ∧ w.dataTheme = some "light")) →
      ((toggleTheme (toggleTheme w)).htmlDark = w.htmlDark ∧
       (toggleTheme (toggleTheme w)).bodyDark = w.bodyDark ∧
       (toggleTheme (toggleTheme w)).dataTheme = w.dataTheme)) := by
  constructor
  · rw [toggleTheme_isDark, toggleTheme_isDark, Bool.not_not]
  · rintro (⟨hh, hb, ht⟩ | ⟨hh, hb, ht⟩)
    · have hd : isDarkOf w = true := by simp [isDarkOf, hh]
      have hd2 : isDarkOf (toggleTheme w) = false := by
        rw [toggleTheme_isDark, hd]; rfl
      refine ⟨?_, ?_, ?_⟩ <;>
        simp [toggleTheme_htmlDark, toggleTheme_bodyDark, toggleTheme_dataTheme,
              hd2, hh, hb, ht]
    · have hd : isDarkOf w = false := by
        simp [isDarkOf, hh, hb, ht, someLightNeqSomeDark]
      have hd2 : isDarkOf (toggleTheme w) = true := by
        rw [toggleTheme_isDark, hd]; rfl
      refine ⟨?_, ?_, ?_⟩ <;>
        simp [toggleTheme_htmlDark, toggleTheme_bodyDark, toggleTheme_dataTheme,
              hd2, hh, hb, ht]

/-- C2 witness: the amended statement at the canonical dark world. -/
theorem C2_double_toggle_witness :
    (toggleTheme (toggleTheme wDarkCanon)).htmlDark = wDarkCanon.htmlDark ∧
    (toggleTheme (toggleTheme wDarkCanon)).bodyDark = wDarkCanon.bodyDark ∧
    (toggleTheme (toggleTheme wDarkCanon)).dataTheme = wDarkCanon.dataTheme :=
  (C2_double_toggle wDarkCanon).2 (Or.inl ⟨rfl, rfl, rfl⟩)

/-- Closed form of `handleKeyboardShortcut`. -/
lemma handleKeyboardShortcut_spec (e : KeyEvent) (w : World) :
    handleKeyboardShortcut e w =
      (if shortcutSat e then
        (if (clickThemeToggleButton w).2 then ((clickThemeToggleButton w).1, true)
         else (toggleTheme (clickThemeToggleButton w).1, true))
       else (w, false)) := by
  unfold handleKeyboardShortcut
  cases hc : clickThemeToggleButton w with
  | mk w1 flag =>
    cases flag <;> cases hs : shortcutSat e <;> simp [hs]

/-- C3, counterexample: a fixed-order selector (`button[aria-label*="theme"]`)
matches a visible element of the document, yet on the shortcut no control is
clicked and the manual toggle writes storage — because the selector's first
document-order match is a hidden element, and `querySelector` only returns
the first match. -/
theorem C3_counterexample :
    (selectorList.any
      (fun sel => wShadowed.elems.any (fun el => sel.sat el && el.visible))) = true ∧
    (handleKeyboardShortcut evShortcut wShadowed).1.clicks = [] ∧
    wShadowed.sPref = some "light" ∧
    (handleKeyboardShortcut evShortcut wShadowed).1.sPref = some "dark" := by
  decide

/-- C3, amended: on the shortcut, when DOM queries succeed and a host
control is findable — the first document-order match of some fixed-order
selector is visible, or some visible button carries themed svg markup — the
handler clicks exactly one element and writes neither storage key (and
dispatches no event); the manual toggle runs exactly when no such control
is found. -/
theorem C3_shortcut_delegates (e : KeyEvent) (w : World)
    (hs : shortcutSat e = true) (hq : w.queryThrows = false) :
    (hostControlFindable w = true →
      (handleKeyboardShortcut e w).1.sPref = w.sPref ∧
      (handleKeyboardShortcut e w).1.sTheme = w.sTheme ∧
      (handleKeyboardShortcut e w).1.events = w.events ∧
      ∃ n : Nat, (handleKeyboardShortcut e w).1.clicks = w.clicks ++ [n]) ∧
    (hostControlFindable w = false →
      (handleKeyboardShortcut e w).1 = toggleTheme w) := by
  have hflag := clickThemeToggleButton_flag w hq
  constructor
  · intro hfind
    have hc2 : (clickThemeToggleButton w).2 = true := by rw [hflag, hfind]
    obtain ⟨b, hb⟩ := (clickThemeToggleButton_world w).2 hc2
    have hw : (handleKeyboardShortcut e w).1 = clickElem b w := by
      simp [handleKeyboardShortcut_spec, hs, hc2, hb]
    rw [hw]
    exact ⟨rfl, rfl, rfl, ⟨b.ident, rfl⟩⟩
  · intro hfind
    have hc2 : (clickThemeToggleButton w).2 = false := by rw [hflag, hfind]
    have hcw : (clickThemeToggleButton w).1 = w := (clickThemeToggleButton_world w).1 hc2
    simp [handleKeyboardShortcut_spec, hs, hc2, hcw]

/-- C3 witness: the amended statement at a world with one visible host
control. -/
theorem C3_shortcut_delegates_witness :
    (handleKeyboardShortcut evShortcut wHost).1.sPref = wHost.sPref ∧
    (handleKeyboardShortcut evShortcut wHost).1.sTheme = wHost.sTheme ∧
    (handleKeyboardShortcut evShortcut wHost).1.events = wHost.events ∧
    ∃ n : Nat, (handleKeyboardShortcut evShortcut wHost).1.clicks =
      wHost.clicks ++ [n] :=
  (C3_shortcut_delegates evShortcut wHost rfl rfl).1 (by decide)

/-- C4: after a non-throwing manual toggle both storage keys hold the same
value (the new theme name), and the shortcut's fallback path — no host
control found, non-throwing toggle — also leaves both keys equal to that
value. -/
theorem C4_storage_keys_agree (w : World) (e : KeyEvent) :
    ((toggleThemeBody w).2 = Except.ok () →
      (toggleTheme w).sPref = (toggleTheme w).sTheme ∧
      (toggleTheme w).sTheme = some (if isDarkOf w then "light" else "dark")) ∧
    (shortcutSat e = true → (clickThemeToggleButton w).2 = false →
     (toggleThemeBody w).2 = Except.ok () →
      (handleKeyboardShortcut e w).1.sPref = (handleKeyboardShortcut e w).1.sTheme ∧
      (handleKeyboardShortcut e w).1.sTheme =
        some (if isDarkOf w then "light" else "dark")) := by
  have main : (toggleThemeBody w).2 = Except.ok () →
      (toggleTheme w).sPref = (toggleTheme w).sTheme ∧
      (toggleTheme w).sTheme = some (if isDarkOf w then "light" else "dark") := by
    intro hok
    obtain ⟨h1, h2⟩ := (toggleThemeBody_ok_iff w).mp hok
    constructor
    · simp [toggleTheme_sPref, toggleTheme_sTheme, h1, h2]
    · simp [toggleTheme_sTheme, h1, h2]
  refine ⟨main, fun hs hc hok => ?_⟩
  have hcw : (clickThemeToggleButton w).1 = w := (clickThemeToggleButton_world w).1 hc
  have hworld : (handleKeyboardShortcut e w).1 = toggleTheme w := by
    simp [handleKeyboardShortcut_spec, hs, hc, hcw]
  rw [hworld]
  exact main hok

/-- C4 witness: the fallback path at the canonical light world with an
empty document. -/
theorem C4_storage_keys_agree_witness :
    (handleKeyboardShortcut evShortcut wBase).1.sPref =
      (handleKeyboardShortcut evShortcut wBase).1.sTheme ∧
    (handleKeyboardShortcut evShortcut wBase).1.sTheme =
      some (if isDarkOf wBase then "light" else "dark") :=
  (C4_storage_keys_agree wBase evShortcut).2 rfl rfl rfl

/-- C5: the apply-saved-theme operation reads the first storage key, falling
back to the second (by JS truthiness); when the value so read is `"dark"`,
the dark presentation attributes are set on root and body. -/
theorem C5_apply_saved_dark (w : World) (hg : w.getThrows = false)
    (hd : (if jsTruthy w.sPref then w.sPref else w.sTheme) = some "dark") :
    (applySavedTheme w).htmlDark = true ∧
    (applySavedTheme w).bodyDark = true ∧
    (applySavedTheme w).dataTheme = some "dark" := by
  rw [applySavedTheme_spec, if_neg (by simp [hg])]
  by_cases h1 : jsTruthy w.sPref = true
  · rw [if_pos h1] at hd
    rw [if_pos h1]
    unfold applyThemeVal
    rw [if_pos (by simp [hd])]
    exact ⟨rfl, rfl, rfl⟩
  · rw [if_neg h1] at hd
    have h2 : jsTruthy w.sTheme = true := by rw [hd]; rfl
    rw [if_neg h1, if_pos h2]
    unfold applyThemeVal
    rw [if_pos (by simp [hd])]
    exact ⟨rfl, rfl, rfl⟩

/-- C5 witness: the dark preference stored only under the fallback key is
found and applied. -/
theorem C5_apply_saved_dark_witness :
    (applySavedTheme wDarkStored).htmlDark = true ∧
    (applySavedTheme wDarkStored).bodyDark = true ∧
    (applySavedTheme wDarkStored).dataTheme = some "dark" :=
  C5_apply_saved_dark wDarkStored rfl rfl

/-- C6: with both storage keys empty, the apply-saved-theme operation leaves
the presentation attributes and the storage contents unchanged. -/
theorem C6_no_pref_unchanged (w : World)
    (h1 : w.sPref = none) (h2 : w.sTheme = none) :
    (applySavedTheme w).htmlDark = w.htmlDark ∧
    (applySavedTheme w).bodyDark = w.bodyDark ∧
    (applySavedTheme w).dataTheme = w.dataTheme ∧
    (applySavedTheme w).sPref = w.sPref ∧
    (applySavedTheme w).sTheme = w.sTheme := by
  rw [applySavedTheme_spec]
  by_cases hg : w.getThrows = true
  · rw [if_pos hg]
    exact ⟨rfl, rfl, rfl, rfl, rfl⟩
  · rw [if_neg hg, if_neg (by simp [jsTruthy, h1]), if_neg (by simp [jsTruthy, h2])]
    exact ⟨rfl, rfl, rfl, rfl, rfl⟩

/-- C6 witness: the statement at the world with empty storage. -/
theorem C6_no_pref_unchanged_witness :
    (applySavedTheme wEmptyStore).htmlDark = wEmptyStore.htmlDark ∧
    (applySavedTheme wEmptyStore).bodyDark = wEmptyStore.bodyDark ∧
    (applySavedTheme wEmptyStore).dataTheme = wEmptyStore.dataTheme ∧
    (applySavedTheme wEmptyStore).sPref = wEmptyStore.sPref ∧
    (applySavedTheme wEmptyStore).sTheme = wEmptyStore.sTheme :=
  C6_no_pref_unchanged wEmptyStore rfl rfl

/-- C7, counterexample: with DOM queries raising, an exception is raised by
DOM access inside the locate-host-control operation (`querySelector` on the
first selector returns an error), yet the operation logs no warning — its
catch handlers are silent, contradicting the claim that a warning is always
logged. -/
theorem C7_counterexample :
    (querySelOne (Selector.buttonAria "theme") wQueryBroken).2 = Except.error () ∧
    (clickThemeToggleButton wQueryBroken).1.warnings = wQueryBroken.warnings ∧
    wQueryBroken.warnings = 0 :=
  ⟨rfl, rfl, rfl⟩

/-- C7, amended: no exception propagates out of the toggle, apply-saved-theme
or locate-host-control operations (each is a total function on worlds, its
catch handlers consuming every raise); the toggle and apply-saved-theme log
exactly one warning when their body raises and leave the body's resulting
state otherwise, while locate-host-control catches silently and never logs. -/
theorem C7_exceptions_contained (w : World) :
    (clickThemeToggleButton w).1.warnings = w.warnings ∧
    ((toggleThemeBody w).2 = Except.error () →
      (toggleTheme w).warnings = w.warnings + 1) ∧
    ((toggleThemeBody w).2 = Except.ok () →
      toggleTheme w = (toggleThemeBody w).1) ∧
    ((applySavedThemeBody w).2 = Except.error () →
      (applySavedTheme w).warnings = w.warnings + 1) ∧
    ((applySavedThemeBody w).2 = Except.ok () →
      applySavedTheme w = (applySavedThemeBody w).1) := by
  refine ⟨?_, ?_, ?_, ?_, ?_⟩
  · obtain ⟨hf, ht⟩ := clickThemeToggleButton_world w
    cases hflag : (clickThemeToggleButton w).2
    · rw [hf hflag]
    · obtain ⟨b, hb⟩ := ht hflag
      rw [hb]
      rfl
  · intro herr
    have hw := toggleThemeBody_warnings w
    unfold toggleTheme
    cases hb : toggleThemeBody w with
    | mk w1 r =>
      rw [hb] at hw
      cases r with
      | ok u => rw [hb] at herr; simp at herr
      | error u =>
        have hw2 : w1.warnings = w.warnings := hw
        show (warnW w1).warnings = w.warnings + 1
        simp [warnW, hw2]
  · intro hok
    unfold toggleTheme
    cases hb : toggleThemeBody w with
    | mk w1 r =>
      cases r with
      | ok u => rfl
      | error u => rw [hb] at hok; simp at hok
  · intro herr
    have hw := applySavedThemeBody_warnings w
    unfold applySavedTheme
    cases hb : applySavedThemeBody w with
    | mk w1 r =>
      rw [hb] at hw
      cases r with
      | ok u => rw [hb] at herr; simp at herr
      | error u =>
        have hw2 : w1.warnings = w.warnings := hw
        show (warnW w1).warnings = w.warnings + 1
        simp [warnW, hw2]
  · intro hok
    unfold applySavedTheme
    cases hb : applySavedThemeBody w with
    | mk w1 r =>
      cases r with
      | ok u => rfl
      | error u => rw [hb] at hok; simp at hok

/-- C7 witness: with storage reads raising, apply-saved-theme logs one
warning. -/
theorem C7_exceptions_contained_witness :
    (applySavedTheme wGetBroken).warnings = wGetBroken.warnings + 1 :=
  (C7_exceptions_contained wGetBroken).2.2.2.1 rfl

/-- C8: the toggle determines the current theme from the presentation
attributes alone — two worlds agreeing on the `dark` classes and the
`data-theme` attribute, whatever their storage contents and fault
configuration, end in the same presentation state after a toggle. -/
theorem C8_presentation_only (w v : World)
    (hh : w.htmlDark = v.htmlDark) (hb : w.bodyDark = v.bodyDark)
    (ht : w.dataTheme = v.dataTheme) :
    (toggleTheme w).htmlDark = (toggleTheme v).htmlDark ∧
    (toggleTheme w).bodyDark = (toggleTheme v).bodyDark ∧
    (toggleTheme w).dataTheme = (toggleTheme v).dataTheme := by
  have hd : isDarkOf w = isDarkOf v := by simp [isDarkOf, hh, hb, ht]
  refine ⟨?_, ?_, ?_⟩ <;>
    simp [toggleTheme_htmlDark, toggleTheme_bodyDark, toggleTheme_dataTheme, hd]

/-- C8 witness: `wBase` and a world with different storage and faults but
the same presentation agree after toggling. -/
theorem C8_presentation_only_witness :
    (toggleTheme wBase).htmlDark = (toggleTheme wAltStorage).htmlDark ∧
    (toggleTheme wBase).bodyDark = (toggleTheme wAltStorage).bodyDark ∧
    (toggleTheme wBase).dataTheme = (toggleTheme wAltStorage).dataTheme :=
  C8_presentation_only wBase wAltStorage rfl rfl rfl

/-- C9: a truthy stored value other than `"dark"` (for example `"blue"`) is
treated as light: the apply-saved-theme operation removes the dark classes
and sets `data-theme="light"`. -/
theorem C9_non_dark_is_light (w : World) (hg : w.getThrows = false)
    (ht : jsTruthy (if jsTruthy w.sPref then w.sPref else w.sTheme) = true)
    (hd : (if jsTruthy w.sPref then w.sPref else w.sTheme) ≠ some "dark") :
    (applySavedTheme w).htmlDark = false ∧
    (applySavedTheme w).bodyDark = false ∧
    (applySavedTheme w).dataTheme = some "light" := by
  rw [applySavedTheme_spec, if_neg (by simp [hg])]
  by_cases h1 : jsTruthy w.sPref = true
  · rw [if_pos h1] at hd
    rw [if_pos h1]
    unfold applyThemeVal
    rw [if_neg (by simpa using hd)]
    exact ⟨rfl, rfl, rfl⟩
  · rw [if_neg h1] at ht hd
    rw [if_neg h1, if_pos ht]
    unfold applyThemeVal
    rw [if_neg (by simpa using hd)]
    exact ⟨rfl, rfl, rfl⟩

/-- C9 witness: the stored value "blue" results in the light presentation. -/
theorem C9_non_dark_is_light_witness :
    (applySavedTheme wBlueStored).htmlDark = false ∧
    (applySavedTheme wBlueStored).bodyDark = false ∧
    (applySavedTheme wBlueStored).dataTheme = some "light" :=
  C9_non_dark_is_light wBlueStored rfl rfl (by decide)

/-- C10: the toggle flips the presentation attributes before either storage
write, so on a raising write the presentation has already flipped while
storage is unchanged (first write raises) or only the first key is updated
(second write raises) — the operation is not atomic on error. -/
theorem C10_presentation_before_storage (w : World) :
    (w.setFails THEME_STORAGE_KEY = true →
      (toggleTheme w).htmlDark = !(isDarkOf w) ∧
      (toggleTheme w).bodyDark = !(isDarkOf w) ∧
      (toggleTheme w).dataTheme = some (if isDarkOf w then "light" else "dark") ∧
      (toggleTheme w).sPref = w.sPref ∧
      (toggleTheme w).sTheme = w.sTheme) ∧
    (w.setFails THEME_STORAGE_KEY = false →
     w.setFails MINTLIFY_THEME_KEY = true →
      (toggleTheme w).htmlDark = !(isDarkOf w) ∧
      (toggleTheme w).bodyDark = !(isDarkOf w) ∧
      (toggleTheme w).dataTheme = some (if isDarkOf w then "light" else "dark") ∧
      (toggleTheme w).sPref = some (if isDarkOf w then "light" else "dark") ∧
      (toggleTheme w).sTheme = w.sTheme) := by
  constructor
  · intro h1
    refine ⟨toggleTheme_htmlDark w, toggleTheme_bodyDark w,
            toggleTheme_dataTheme w, ?_, ?_⟩
    · rw [toggleTheme_sPref, if_pos h1]
    · rw [toggleTheme_sTheme, if_pos h1]
  · intro h1 h2
    refine ⟨toggleTheme_htmlDark w, toggleTheme_bodyDark w,
            toggleTheme_dataTheme w, ?_, ?_⟩
    · simp [toggleTheme_sPref, h1]
    · simp [toggleTheme_sTheme, h1, h2]

/-- C10 witness: with the write to the second key raising, the presentation
flipped to dark, the first key was updated and the second was not. -/
theorem C10_presentation_before_storage_witness :
    (toggleTheme wSetFail2).htmlDark = !(isDarkOf wSetFail2) ∧
    (toggleTheme wSetFail2).bodyDark = !(isDarkOf wSetFail2) ∧
    (toggleTheme wSetFail2).dataTheme =
      some (if isDarkOf wSetFail2 then "light" else "dark") ∧
    (toggleTheme wSetFail2).sPref =
      some (if isDarkOf wSetFail2 then "light" else "dark") ∧
    (toggleTheme wSetFail2).sTheme = wSetFail2.sTheme :=
  (C10_presentation_before_storage wSetFail2).2 rfl rfl

end ThemeToggle
